import Mathlib

/-!
Shallow embedding of the autotiling core of the emerald engine
(`src/emerald/src/core/components/autotilemap.rs`): the `AutoTileRuleset`
matcher, the `AutoTilemap` occupancy grid, ruleset management,
`compute_tile_id` and `bake`.

The Grid Indexer (`get_tilemap_index`) and the Base Tile Grid (`Tilemap`)
live outside the excerpted sources, so they are modelled from the spec
(sections 4.1 and 6); everything else is translated from the Rust source.
Machine integers (`usize`, `isize`) are modelled as `Nat` and `Int`;
fallible operations return `Except EmeraldError`.
-/

/-- Tile identifiers; an opaque numeric id in the engine. -/
abbrev TileId := Nat

/-- Opaque texture handle; the autotiling core only stores and returns it. -/
structure TextureKey where
  id : Nat
deriving DecidableEq

/-- The engine's error type; the only kind this core produces is a bounds
violation, recorded here with the offending coordinates and dimensions. -/
inductive EmeraldError where
  | boundsError (x y width height : Nat) : EmeraldError
deriving DecidableEq

/-- Modelled from the spec: the Grid Indexer `get_tilemap_index` is imported
from the `tilemap` module, which is absent from the excerpted sources.
Spec 4.1: `index(x, y, width, height) → flat_index | BoundsError`, failing
whenever `x ≥ width` or `y ≥ height`; the flat index addresses a
row/column-major sequence of length `width × height`. -/
def get_tilemap_index (x y width height : Nat) : Except EmeraldError Nat :=
  if x < width ∧ y < height then Except.ok (y * width + x)
  else Except.error (EmeraldError.boundsError x y width height)

/-- `AutoTileRulesetValue`: a pattern cell's expectation (`None`, `Tile`,
or the wildcard `Any`). -/
inductive AutoTileRulesetValue where
  | None
  | Tile
  | Any
deriving DecidableEq

/-- `AutoTile`: the binary occupancy marker of one grid cell. -/
inductive AutoTile where
  | None
  | Tile
deriving DecidableEq

/-- `AUTOTILE_RULESET_GRID_SIZE`: the fixed side length of a pattern grid. -/
def AUTOTILE_RULESET_GRID_SIZE : Nat := 5

/-- `AutoTileRuleset`: a tile id plus a 5x5 pattern grid, indexed as
`grid[ruleset_x][ruleset_y]` in the source. -/
structure AutoTileRuleset where
  tile_id : TileId
  grid : Fin 5 → Fin 5 → AutoTileRulesetValue

/-- `AutoTileRuleset::get_autotile_ruleset_value`: resolve the occupancy at a
signed coordinate to a pattern value, treating negative or out-of-bounds
coordinates as `Any`. -/
def AutoTileRuleset.get_autotile_ruleset_value
    (autotiles : List AutoTile) (autotilemap_width autotilemap_height : Nat)
    (x y : Int) : AutoTileRulesetValue :=
  if x < 0 ∨ y < 0 then AutoTileRulesetValue.Any
  else
    match get_tilemap_index x.toNat y.toNat autotilemap_width autotilemap_height with
    | Except.ok index =>
      match autotiles.getD index AutoTile.None with
      | AutoTile.None => AutoTileRulesetValue.None
      | AutoTile.Tile => AutoTileRulesetValue.Tile
    | Except.error _ => AutoTileRulesetValue.Any

/-- One iteration of the matcher's 5x5 loop body: the cell passes when it is
the center or `Any`, and otherwise exactly when the pattern value equals the
resolved neighbor value. -/
def AutoTileRuleset.cellOk (r : AutoTileRuleset) (autotiles : List AutoTile)
    (autotilemap_width autotilemap_height x y : Nat) (rx ry : Fin 5) : Bool :=
  if (rx.val = 2 ∧ ry.val = 2) ∨ r.grid rx ry = AutoTileRulesetValue.Any then true
  else
    decide (r.grid rx ry =
      AutoTileRuleset.get_autotile_ruleset_value autotiles autotilemap_width
        autotilemap_height ((x : Int) - 2 + (rx.val : Int)) ((y : Int) - 2 + (ry.val : Int)))

/-- `AutoTileRuleset::matches`: the target cell must be in bounds and occupied,
and every non-center, non-`Any` pattern cell must equal its resolved neighbor. -/
def AutoTileRuleset.matches (r : AutoTileRuleset) (autotiles : List AutoTile)
    (autotilemap_width autotilemap_height x y : Nat) : Bool :=
  match get_tilemap_index x y autotilemap_width autotilemap_height with
  | Except.error _ => false
  | Except.ok index =>
    if autotiles.getD index AutoTile.None ≠ AutoTile.Tile then false
    else
      (List.finRange 5).all fun rx =>
        (List.finRange 5).all fun ry =>
          r.cellOk autotiles autotilemap_width autotilemap_height x y rx ry

/-- Modelled from the spec: the Base Tile Grid (`Tilemap`), absent from the
excerpted sources. Spec 6: read-only `width`, `height`, `tile_size`,
`tilesheet` fields and a flat sequence of optional tile ids. -/
structure Tilemap where
  tilesheet : TextureKey
  tile_size : Nat × Nat
  width : Nat
  height : Nat
  tiles : List (Option TileId)

/-- Modelled from the spec: `Tilemap::new` initializes every Base Tile Grid
cell to empty (spec 3, Lifecycle). -/
def Tilemap.new (tilesheet : TextureKey) (tile_size : Nat × Nat)
    (width height : Nat) : Tilemap :=
  { tilesheet := tilesheet, tile_size := tile_size, width := width,
    height := height, tiles := List.replicate (width * height) none }

/-- Modelled from the spec: `Tilemap::set_tile(x, y, optional tile_id) →
success | BoundsError` (spec 6), storing through the Grid Indexer. -/
def Tilemap.set_tile (t : Tilemap) (x y : Nat) (tid : Option TileId) :
    Except EmeraldError Tilemap :=
  match get_tilemap_index x y t.width t.height with
  | Except.ok index => Except.ok { t with tiles := t.tiles.set index tid }
  | Except.error e => Except.error e

/-- Modelled from the spec: `Tilemap::get_tile(x, y) → optional tile_id |
BoundsError` (spec 6). -/
def Tilemap.get_tile (t : Tilemap) (x y : Nat) :
    Except EmeraldError (Option TileId) :=
  match get_tilemap_index x y t.width t.height with
  | Except.ok index => Except.ok (t.tiles.getD index none)
  | Except.error e => Except.error e

/-- `AutoTilemap`: the Base Tile Grid, the ordered ruleset collection and the
occupancy grid. -/
structure AutoTilemap where
  tilemap : Tilemap
  rulesets : List AutoTileRuleset
  autotiles : List AutoTile

/-- `AutoTilemap::new`: builds the inner `Tilemap` and initializes
`map_width * map_height` occupancy markers to `None`. -/
def AutoTilemap.new (tilesheet : TextureKey) (tile_size : Nat × Nat)
    (map_width map_height : Nat) (rulesets : List AutoTileRuleset) : AutoTilemap :=
  { tilemap := Tilemap.new tilesheet tile_size map_width map_height,
    rulesets := rulesets,
    autotiles := List.replicate (map_width * map_height) AutoTile.None }

/-- `AutoTilemap::width`. -/
def AutoTilemap.width (m : AutoTilemap) : Nat := m.tilemap.width

/-- `AutoTilemap::height`. -/
def AutoTilemap.height (m : AutoTilemap) : Nat := m.tilemap.height

/-- `AutoTilemap::tilesheet`. -/
def AutoTilemap.tilesheet (m : AutoTilemap) : TextureKey := m.tilemap.tilesheet

/-- `AutoTilemap::tile_size`. -/
def AutoTilemap.tile_size (m : AutoTilemap) : Nat × Nat := m.tilemap.tile_size

/-- `AutoTilemap::add_ruleset`: pushes onto the end of the collection. -/
def AutoTilemap.add_ruleset (m : AutoTilemap) (ruleset : AutoTileRuleset) : AutoTilemap :=
  { m with rulesets := m.rulesets ++ [ruleset] }

/-- `AutoTilemap::get_autotile`. -/
def AutoTilemap.get_autotile (m : AutoTilemap) (x y : Nat) :
    Except EmeraldError AutoTile :=
  match get_tilemap_index x y m.width m.height with
  | Except.ok index => Except.ok (m.autotiles.getD index AutoTile.None)
  | Except.error e => Except.error e

/-- `AutoTilemap::set_autotile`: writes one occupancy marker through the Grid
Indexer. -/
def AutoTilemap.set_autotile (m : AutoTilemap) (x y : Nat) (new_tile_id : AutoTile) :
    Except EmeraldError AutoTilemap :=
  match get_tilemap_index x y m.width m.height with
  | Except.ok index => Except.ok { m with autotiles := m.autotiles.set index new_tile_id }
  | Except.error e => Except.error e

/-- `AutoTilemap::set_tile`. -/
def AutoTilemap.set_tile (m : AutoTilemap) (x y : Nat) :
    Except EmeraldError AutoTilemap :=
  m.set_autotile x y AutoTile.Tile

/-- `AutoTilemap::set_none`. -/
def AutoTilemap.set_none (m : AutoTilemap) (x y : Nat) :
    Except EmeraldError AutoTilemap :=
  m.set_autotile x y AutoTile.None

/-- `AutoTilemap::tiles`. -/
def AutoTilemap.tiles (m : AutoTilemap) : List (Option TileId) := m.tilemap.tiles

/-- `AutoTilemap::get_ruleset`: first ruleset with the given `tile_id`. -/
def AutoTilemap.get_ruleset (m : AutoTilemap) (tile_id : TileId) :
    Option AutoTileRuleset :=
  m.rulesets.find? (fun ruleset => ruleset.tile_id == tile_id)

/-- `Iterator::position`: index of the first element satisfying the predicate. -/
def findPosition (p : α → Bool) : List α → Option Nat
  | [] => none
  | a :: l => if p a then some 0 else (findPosition p l).map (· + 1)

/-- `Vec::remove`: removes and returns the element at an index, shifting the
rest left (`none` stands in for the out-of-range panic, which the caller's
`position` check rules out). -/
def removeAt : List α → Nat → Option α × List α
  | [], _ => (none, [])
  | a :: l, 0 => (some a, l)
  | a :: l, n + 1 =>
    let r := removeAt l n
    (r.1, a :: r.2)

/-- `AutoTilemap::remove_ruleset`: locate the first ruleset with the given
`tile_id` by position, remove and return it; `None` when absent. -/
def AutoTilemap.remove_ruleset (m : AutoTilemap) (tile_id : TileId) :
    Option AutoTileRuleset × AutoTilemap :=
  match findPosition (fun ruleset => ruleset.tile_id == tile_id) m.rulesets with
  | some index =>
    let r := removeAt m.rulesets index
    (r.1, { m with rulesets := r.2 })
  | none => (none, m)

/-- `AutoTilemap::compute_tile_id`: the `tile_id` of the first ruleset in
collection order whose `matches` succeeds, else no tile. -/
def AutoTilemap.compute_tile_id (m : AutoTilemap) (x y : Nat) :
    Except EmeraldError (Option TileId) :=
  match m.rulesets.find? (fun ruleset =>
      ruleset.matches m.autotiles m.width m.height x y) with
  | some ruleset => Except.ok (some ruleset.tile_id)
  | none => Except.ok none

/-- `AutoTilemap::get_tile_id`: delegates to the Base Tile Grid. -/
def AutoTilemap.get_tile_id (m : AutoTilemap) (x y : Nat) :
    Except EmeraldError (Option TileId) :=
  m.tilemap.get_tile x y

/-- The cells visited by `bake`'s nested loops, in iteration order
(`x` outer, `y` inner). -/
def cellList (width height : Nat) : List (Nat × Nat) :=
  (List.range width).flatMap fun x => (List.range height).map fun y => (x, y)

/-- The body of `bake`'s inner loop:
`self.tilemap.set_tile(x, y, self.compute_tile_id(x, y)?)?`. -/
def AutoTilemap.bakeCell (m : AutoTilemap) (x y : Nat) :
    Except EmeraldError AutoTilemap := do
  let tid ← m.compute_tile_id x y
  let tm ← m.tilemap.set_tile x y tid
  pure { m with tilemap := tm }

/-- `AutoTilemap::bake`: recompute every cell's tile id into the Base Tile
Grid, aborting on the first error. -/
def AutoTilemap.bake (m : AutoTilemap) : Except EmeraldError AutoTilemap :=
  (cellList m.width m.height).foldlM (fun acc p => acc.bakeCell p.1 p.2) m

/-- The pure value `compute_tile_id` wraps in `ok`. -/
def computeOpt (rulesets : List AutoTileRuleset) (autotiles : List AutoTile)
    (width height x y : Nat) : Option TileId :=
  (rulesets.find? (fun ruleset => ruleset.matches autotiles width height x y)).map
    (fun ruleset => ruleset.tile_id)

/-- Apply a list of indexed writes to a tile list, left to right. -/
def applyWrites (ws : List (Nat × Option TileId)) (l : List (Option TileId)) :
    List (Option TileId) :=
  ws.foldl (fun acc p => acc.set p.1 p.2) l

/-- The occupancy-length invariant: one marker per grid cell. -/
def AutoTilemap.autotilesInv (m : AutoTilemap) : Prop :=
  m.autotiles.length = m.width * m.height

/-- The indexed writes `bake` performs, in iteration order: one per cell,
with the value `compute_tile_id` produces there. -/
def bakeWrites (m : AutoTilemap) : List (Nat × Option TileId) :=
  (cellList m.width m.height).map fun p =>
    (p.2 * m.width + p.1, computeOpt m.rulesets m.autotiles m.width m.height p.1 p.2)

/-- The state `bake` produces: same occupancy, rulesets and dimensions, with
the Base Tile Grid rewritten by `bakeWrites`. -/
def bakeResult (m : AutoTilemap) : AutoTilemap :=
  { m with tilemap :=
    { m.tilemap with tiles := applyWrites (bakeWrites m) m.tilemap.tiles } }

/-- A concrete texture handle for the worked examples below. -/
def tkW : TextureKey := ⟨0⟩

/-- A ruleset whose pattern is entirely `Any`, tile id 5. -/
def rsAnyA : AutoTileRuleset :=
  { tile_id := 5, grid := fun _ _ => AutoTileRulesetValue.Any }

/-- A second all-`Any` ruleset, tile id 6. -/
def rsAnyB : AutoTileRuleset :=
  { tile_id := 6, grid := fun _ _ => AutoTileRulesetValue.Any }

/-- A ruleset expecting a concrete `Tile` at pattern position (0, 0)
(neighbor offset (-2, -2)), `Any` elsewhere; tile id 7. -/
def rsCorner : AutoTileRuleset :=
  { tile_id := 7,
    grid := fun rx ry =>
      if rx.val = 0 ∧ ry.val = 0 then AutoTileRulesetValue.Tile
      else AutoTileRulesetValue.Any }

/-- All-`Any` ruleset whose (ignored) center cell is authored `None`. -/
def rsCenN : AutoTileRuleset :=
  { tile_id := 8,
    grid := fun rx ry =>
      if rx.val = 2 ∧ ry.val = 2 then AutoTileRulesetValue.None
      else AutoTileRulesetValue.Any }

/-- Same as `rsCenN` but with the center cell authored `Tile`. -/
def rsCenT : AutoTileRuleset :=
  { tile_id := 8,
    grid := fun rx ry =>
      if rx.val = 2 ∧ ry.val = 2 then AutoTileRulesetValue.Tile
      else AutoTileRulesetValue.Any }

/-- A 1x1 map with no rulesets and an unoccupied cell. -/
def mEmpty : AutoTilemap := AutoTilemap.new tkW (1, 1) 1 1 []

/-- A 1x1 map whose single cell is occupied, carrying the two all-`Any`
rulesets (in that order) and `rsCorner`. -/
def mOcc : AutoTilemap :=
  { tilemap := Tilemap.new tkW (1, 1) 1 1,
    rulesets := [rsAnyA, rsAnyB, rsCorner],
    autotiles := [AutoTile.Tile] }

/-- An out-of-bounds target coordinate makes `matches` fail immediately. -/
lemma matches_oob (r : AutoTileRuleset) (autotiles : List AutoTile) (w h x y : Nat)
    (hx : ¬(x < w ∧ y < h)) : r.matches autotiles w h x y = false := by
  unfold AutoTileRuleset.matches get_tilemap_index
  rw [if_neg hx]

/-- An unoccupied target cell makes `matches` fail immediately. -/
lemma matches_unocc (r : AutoTileRuleset) (autotiles : List AutoTile) (w h x y : Nat)
    (hx : x < w) (hy : y < h)
    (hocc : autotiles.getD (y * w + x) AutoTile.None ≠ AutoTile.Tile) :
    r.matches autotiles w h x y = false := by
  unfold AutoTileRuleset.matches get_tilemap_index
  rw [if_pos (And.intro hx hy)]
  exact if_pos hocc

/-- On an in-bounds occupied target, `matches` is the conjunction of the 25
per-cell checks. -/
lemma matches_occ (r : AutoTileRuleset) (autotiles : List AutoTile) (w h x y : Nat)
    (hx : x < w) (hy : y < h)
    (hocc : autotiles.getD (y * w + x) AutoTile.None = AutoTile.Tile) :
    r.matches autotiles w h x y =
      ((List.finRange 5).all fun rx => (List.finRange 5).all fun ry =>
        r.cellOk autotiles w h x y rx ry) := by
  unfold AutoTileRuleset.matches get_tilemap_index
  rw [if_pos (And.intro hx hy)]
  exact if_neg (fun hne => hne hocc)

/-- A negative or out-of-bounds neighbor coordinate resolves to `Any`. -/
lemma value_any (autotiles : List AutoTile) (w h : Nat) (x y : Int)
    (hoob : (x < 0 ∨ y < 0) ∨ ¬(x.toNat < w ∧ y.toNat < h)) :
    AutoTileRuleset.get_autotile_ruleset_value autotiles w h x y =
      AutoTileRulesetValue.Any := by
  unfold AutoTileRuleset.get_autotile_ruleset_value get_tilemap_index
  by_cases hneg : x < 0 ∨ y < 0
  · rw [if_pos hneg]
  · rw [if_neg hneg]
    rcases hoob with hn | hb
    · exact absurd hn hneg
    · rw [if_neg hb]

/-- `compute_tile_id` always succeeds, returning the pure first-match value. -/
lemma compute_tile_id_ok (m : AutoTilemap) (x y : Nat) :
    m.compute_tile_id x y =
      Except.ok (computeOpt m.rulesets m.autotiles m.width m.height x y) := by
  unfold AutoTilemap.compute_tile_id computeOpt
  rcases hf : m.rulesets.find? (fun ruleset =>
      ruleset.matches m.autotiles m.width m.height x y) with _ | r <;> rw [hf] <;> rfl

/-- When no ruleset matches, `compute_tile_id` returns no tile. -/
lemma compute_eq_ok_none (m : AutoTilemap) (x y : Nat)
    (hall : ∀ r ∈ m.rulesets, r.matches m.autotiles m.width m.height x y = false) :
    m.compute_tile_id x y = Except.ok none := by
  rw [compute_tile_id_ok]
  unfold computeOpt
  rw [List.find?_eq_none.mpr (fun r hr => by simp [hall r hr])]
  rfl

/-- `find?` skips a prefix on which the predicate is everywhere false. -/
lemma find?_prefix_false {α : Type} {p : α → Bool} (l1 l2 : List α)
    (hp : ∀ a ∈ l1, p a = false) : (l1 ++ l2).find? p = l2.find? p := by
  induction l1 with
  | nil => rfl
  | cons a l ih =>
    rw [List.cons_append, List.find?_cons_of_neg _ (by simp [hp a (by simp)])]
    exact ih (fun b hb => hp b (by simp [hb]))

/-- Claim C1: for every occupied in-bounds target cell (x, y) and every
ruleset, if a non-center pattern cell holds a concrete value (not `Any`) and
its corresponding neighbor coordinate (x + rx - 2, y + ry - 2) is negative or
out of bounds, then `matches` returns false; an out-of-bounds neighbor
satisfies a pattern cell only when that pattern cell is `Any`. -/
theorem claim_C1_oob_neighbor (r : AutoTileRuleset) (autotiles : List AutoTile)
    (w h x y : Nat) (rx ry : Fin 5) (hx : x < w) (hy : y < h)
    (hocc : autotiles.getD (y * w + x) AutoTile.None = AutoTile.Tile)
    (hcen : ¬(rx.val = 2 ∧ ry.val = 2))
    (hconc : r.grid rx ry ≠ AutoTileRulesetValue.Any)
    (hoob : ((x : Int) - 2 + (rx.val : Int) < 0 ∨ (y : Int) - 2 + (ry.val : Int) < 0) ∨
      ¬(((x : Int) - 2 + (rx.val : Int)).toNat < w ∧
        ((y : Int) - 2 + (ry.val : Int)).toNat < h)) :
    r.matches autotiles w h x y = false := by
  have hfalse : r.cellOk autotiles w h x y rx ry = false := by
    unfold AutoTileRuleset.cellOk
    rw [if_neg (fun hor => hor.elim hcen hconc)]
    rw [value_any autotiles w h _ _ hoob]
    exact decide_eq_false hconc
  rw [matches_occ r autotiles w h x y hx hy hocc]
  rw [List.all_eq_false]
  refine ⟨rx, List.mem_finRange rx, ?_⟩
  intro hall
  have hc := List.all_eq_true.mp hall ry (List.mem_finRange ry)
  rw [hfalse] at hc
  exact Bool.false_ne_true hc

/-- Witness for C1: a 1x1 map with its only cell occupied, and a ruleset
expecting `Tile` at pattern position (0, 0) — whose neighbor (-2, -2) is
out of the grid — fails to match. -/
theorem claim_C1_witness :
    (0 : Nat) < 1 ∧ rsCorner.grid 0 0 = AutoTileRulesetValue.Tile ∧
      rsCorner.matches [AutoTile.Tile] 1 1 0 0 = false :=
  ⟨by decide, by decide,
    claim_C1_oob_neighbor rsCorner [AutoTile.Tile] 1 1 0 0 0 0 (by decide) (by decide)
      (by decide) (by decide) (by decide) (by decide)⟩

/-- Claim C3: on an unoccupied (or out-of-bounds) target cell,
`compute_tile_id` returns no tile regardless of the ruleset collection, and
`matches` returns false for every ruleset. -/
theorem claim_C3_unoccupied (m : AutoTilemap) (x y : Nat)
    (h : ¬(x < m.width ∧ y < m.height) ∨
      m.autotiles.getD (y * m.width + x) AutoTile.None ≠ AutoTile.Tile) :
    m.compute_tile_id x y = Except.ok none ∧
      ∀ r ∈ m.rulesets, r.matches m.autotiles m.width m.height x y = false := by
  have hm : ∀ r : AutoTileRuleset, r.matches m.autotiles m.width m.height x y = false := by
    intro r
    by_cases hb : x < m.width ∧ y < m.height
    · rcases h with h | h
      · exact absurd hb h
      · exact matches_unocc r _ _ _ _ _ hb.1 hb.2 h
    · exact matches_oob r _ _ _ _ _ hb
  exact ⟨compute_eq_ok_none m x y (fun r _ => hm r), fun r _ => hm r⟩

/-- Witness for C3: on the empty 1x1 map the single cell is unoccupied and
`compute_tile_id` returns no tile. -/
theorem claim_C3_witness :
    mEmpty.autotiles.getD 0 AutoTile.None ≠ AutoTile.Tile ∧
      mEmpty.compute_tile_id 0 0 = Except.ok none :=
  ⟨by decide, (claim_C3_unoccupied mEmpty 0 0 (Or.inr (by decide))).1⟩

/-- Counterexample to C2 as stated: at the out-of-bounds coordinate (1, 0) of
a 1x1 map, `compute_tile_id` returns `ok none` ("no tile") and never a bounds
error — the Grid Indexer's failure is swallowed inside `matches`, not
propagated. -/
theorem claim_C2_counterexample :
    mEmpty.compute_tile_id 1 0 = Except.ok none ∧
      ∀ e : EmeraldError, mEmpty.compute_tile_id 1 0 ≠ Except.error e := by
  refine ⟨rfl, fun e h => ?_⟩
  exact Except.noConfusion ((rfl : mEmpty.compute_tile_id 1 0 = Except.ok none).symm.trans h)

/-- Amended C2: for every coordinate with x ≥ width or y ≥ height,
`compute_tile_id` succeeds with "no tile" (the bounds failure makes every
ruleset's `matches` return false instead of being propagated). -/
theorem claim_C2_amended_thm (m : AutoTilemap) (x y : Nat)
    (h : ¬(x < m.width ∧ y < m.height)) :
    m.compute_tile_id x y = Except.ok none :=
  compute_eq_ok_none m x y (fun r _ => matches_oob r _ _ _ _ _ h)

/-- Witness for the amended C2 at the concrete out-of-bounds input (1, 0). -/
theorem claim_C2_witness :
    ¬((1 : Nat) < mEmpty.width ∧ (0 : Nat) < mEmpty.height) ∧
      mEmpty.compute_tile_id 1 0 = Except.ok none :=
  ⟨by decide, claim_C2_amended_thm mEmpty 1 0 (by decide)⟩

/-- Claim C4: first-match-wins — `compute_tile_id` returns the tile id of the
first ruleset in collection order whose `matches` returns true. -/
theorem claim_C4_first_match (m : AutoTilemap) (x y : Nat)
    (pre post : List AutoTileRuleset) (r : AutoTileRuleset)
    (hsplit : m.rulesets = pre ++ r :: post)
    (hpre : ∀ r' ∈ pre, r'.matches m.autotiles m.width m.height x y = false)
    (hr : r.matches m.autotiles m.width m.height x y = true) :
    m.compute_tile_id x y = Except.ok (some r.tile_id) := by
  rw [compute_tile_id_ok]
  unfold computeOpt
  rw [hsplit, find?_prefix_false _ _ (fun a ha => hpre a ha)]
  simp [List.find?_cons, hr]

/-- Witness for C4: rulesets with ids 5 and 6 both match the occupied cell of
`mOcc`; the result is the first one's id, 5. -/
theorem claim_C4_witness :
    rsAnyA.matches mOcc.autotiles mOcc.width mOcc.height 0 0 = true ∧
      rsAnyB.matches mOcc.autotiles mOcc.width mOcc.height 0 0 = true ∧
      mOcc.compute_tile_id 0 0 = Except.ok (some 5) :=
  ⟨by decide, by decide,
    claim_C4_first_match mOcc 0 0 [] [rsAnyB, rsCorner] rsAnyA rfl
      (by simp) (by decide)⟩

/-- Claim C5: a ruleset whose pattern is entirely `Any` except possibly the
center matches every in-bounds occupied cell, whatever the other cells hold. -/
theorem claim_C5_all_any (r : AutoTileRuleset) (autotiles : List AutoTile)
    (w h x y : Nat)
    (hany : ∀ rx ry : Fin 5, ¬(rx.val = 2 ∧ ry.val = 2) →
      r.grid rx ry = AutoTileRulesetValue.Any)
    (hx : x < w) (hy : y < h)
    (hocc : autotiles.getD (y * w + x) AutoTile.None = AutoTile.Tile) :
    r.matches autotiles w h x y = true := by
  rw [matches_occ r autotiles w h x y hx hy hocc]
  rw [List.all_eq_true]
  intro rx _
  rw [List.all_eq_true]
  intro ry _
  unfold AutoTileRuleset.cellOk
  by_cases hc : rx.val = 2 ∧ ry.val = 2
  · exact if_pos (Or.inl hc)
  · exact if_pos (Or.inr (hany rx ry hc))

/-- Witness for C5: the all-`Any` ruleset matches the occupied corner of a
2x2 map under two different neighbor configurations. -/
theorem claim_C5_witness :
    rsAnyA.matches [AutoTile.Tile, AutoTile.None, AutoTile.None, AutoTile.Tile] 2 2 0 0 = true ∧
      rsAnyA.matches [AutoTile.Tile, AutoTile.Tile, AutoTile.Tile, AutoTile.Tile] 2 2 0 0 = true :=
  ⟨claim_C5_all_any rsAnyA _ 2 2 0 0 (by decide) (by decide) (by decide) (by decide),
    claim_C5_all_any rsAnyA _ 2 2 0 0 (by decide) (by decide) (by decide) (by decide)⟩

/-- Claim C9: the center pattern cell is never read — two rulesets whose grids
agree off-center produce identical `matches` results on every occupancy grid
and every target coordinate. -/
theorem claim_C9_center_ignored (r1 r2 : AutoTileRuleset)
    (hgrid : ∀ rx ry : Fin 5, ¬(rx.val = 2 ∧ ry.val = 2) →
      r1.grid rx ry = r2.grid rx ry) :
    ∀ (autotiles : List AutoTile) (w h x y : Nat),
      r1.matches autotiles w h x y = r2.matches autotiles w h x y := by
  intro autotiles w h x y
  by_cases hb : x < w ∧ y < h
  · by_cases hocc : autotiles.getD (y * w + x) AutoTile.None = AutoTile.Tile
    · rw [matches_occ r1 autotiles w h x y hb.1 hb.2 hocc,
        matches_occ r2 autotiles w h x y hb.1 hb.2 hocc]
      have hcell : ∀ rx ry : Fin 5,
          r1.cellOk autotiles w h x y rx ry = r2.cellOk autotiles w h x y rx ry := by
        intro rx ry
        unfold AutoTileRuleset.cellOk
        by_cases hc : rx.val = 2 ∧ ry.val = 2
        · rw [if_pos (Or.inl hc), if_pos (Or.inl hc)]
        · rw [hgrid rx ry hc]
      simp only [hcell]
    · rw [matches_unocc r1 autotiles w h x y hb.1 hb.2 hocc,
        matches_unocc r2 autotiles w h x y hb.1 hb.2 hocc]
  · rw [matches_oob r1 autotiles w h x y hb, matches_oob r2 autotiles w h x y hb]

/-- Witness for C9: two rulesets differing only in the authored center value
match identically at a concrete cell. -/
theorem claim_C9_witness :
    rsCenN.grid 2 2 ≠ rsCenT.grid 2 2 ∧
      rsCenN.matches [AutoTile.Tile] 1 1 0 0 = rsCenT.matches [AutoTile.Tile] 1 1 0 0 :=
  ⟨by decide, claim_C9_center_ignored rsCenN rsCenT (by decide) [AutoTile.Tile] 1 1 0 0⟩

/-- A predicate false everywhere on a list yields no position. -/
lemma findPosition_none {α : Type} (p : α → Bool) (l : List α)
    (h : ∀ a ∈ l, p a = false) : findPosition p l = none := by
  induction l with
  | nil => rfl
  | cons a l ih =>
    unfold findPosition
    rw [if_neg (by simp [h a (by simp)]), ih (fun b hb => h b (by simp [hb]))]
    rfl

/-- The position of the first hit after an all-miss prefix. -/
lemma findPosition_split {α : Type} (p : α → Bool) (pre : List α) (r : α)
    (post : List α) (hpre : ∀ a ∈ pre, p a = false) (hr : p r = true) :
    findPosition p (pre ++ r :: post) = some pre.length := by
  induction pre with
  | nil => simp [findPosition, hr]
  | cons a l ih =>
    have ha : p a = false := hpre a (by simp)
    simp [findPosition, ha, ih (fun b hb => hpre b (by simp [hb]))]

/-- Removing at the length of the prefix extracts the splitting element. -/
lemma removeAt_split {α : Type} (pre : List α) (r : α) (post : List α) :
    removeAt (pre ++ r :: post) pre.length = (some r, pre ++ post) := by
  induction pre with
  | nil => rfl
  | cons a l ih =>
    unfold removeAt
    rw [List.cons_append]
    simp [ih]

/-- Claim C7: `remove_ruleset` removes exactly the first ruleset in collection
order whose tile id matches, returns it, and preserves the relative order of
the rest; when no ruleset has the id it returns the empty result and leaves
the collection unchanged. -/
theorem claim_C7_remove_first (m : AutoTilemap) (tid : TileId) :
    ((∀ r ∈ m.rulesets, r.tile_id ≠ tid) → m.remove_ruleset tid = (none, m)) ∧
    (∀ pre r post, m.rulesets = pre ++ r :: post →
      (∀ r' ∈ pre, r'.tile_id ≠ tid) → r.tile_id = tid →
      m.remove_ruleset tid = (some r, { m with rulesets := pre ++ post })) := by
  constructor
  · intro h
    unfold AutoTilemap.remove_ruleset
    rw [findPosition_none _ _ (fun a ha => by simp [h a ha])]
  · intro pre r post hsplit hpre hr
    unfold AutoTilemap.remove_ruleset
    rw [hsplit, findPosition_split _ pre r post (fun a ha => by simp [hpre a ha])
      (by simp [hr])]
    simp [removeAt_split]

/-- Witness for C7: removing an absent id leaves `mEmpty` unchanged; removing
id 6 from `mOcc` extracts the middle ruleset and keeps the other two in
order. -/
theorem claim_C7_witness :
    mEmpty.remove_ruleset 9 = (none, mEmpty) ∧
      mOcc.remove_ruleset 6 = (some rsAnyB, { mOcc with rulesets := [rsAnyA, rsCorner] }) :=
  ⟨(claim_C7_remove_first mEmpty 9).1 (by simp [mEmpty, AutoTilemap.new]),
    (claim_C7_remove_first mOcc 6).2 [rsAnyA] rsAnyB [rsCorner] rfl (by decide) rfl⟩

/-- The flat index is injective on in-bounds coordinates. -/
lemma index_inj {w x y x' y' : Nat} (hx : x < w) (hx' : x' < w)
    (heq : y' * w + x' = y * w + x) : x' = x ∧ y' = y := by
  have hw : 0 < w := Nat.lt_of_le_of_lt (Nat.zero_le x) hx
  have e1 : (y' * w + x') % w = x' := by
    rw [Nat.mul_comm y' w, Nat.mul_add_mod, Nat.mod_eq_of_lt hx']
  have e2 : (y * w + x) % w = x := by
    rw [Nat.mul_comm y w, Nat.mul_add_mod, Nat.mod_eq_of_lt hx]
  have hxx : x' = x := by rw [← e1, ← e2, heq]
  subst hxx
  exact ⟨rfl, Nat.eq_of_mul_eq_mul_right hw (Nat.add_right_cancel heq)⟩

/-- The flat index of an in-bounds coordinate is within the grid size. -/
lemma index_lt {w h x y : Nat} (hx : x < w) (hy : y < h) : y * w + x < w * h := by
  calc y * w + x < y * w + w := Nat.add_lt_add_left hx (y * w)
    _ = (y + 1) * w := (Nat.succ_mul y w).symm
    _ ≤ h * w := Nat.mul_le_mul_right w hy
    _ = w * h := Nat.mul_comm h w

/-- Claim C10: for in-bounds (x, y) the three occupancy setters succeed and
modify only the marker at (x, y), leaving every other marker, the ruleset
collection and the whole Base Tile Grid unchanged; for out-of-bounds (x, y)
they fail with a bounds error (returning no new state). `set_tile` and
`set_none` are exactly `set_autotile` with `Tile` / `None`. -/
theorem claim_C10_setters (m : AutoTilemap) (x y : Nat) (v : AutoTile)
    (hlen : m.autotiles.length = m.width * m.height) :
    (x < m.width ∧ y < m.height →
      ∃ m', m.set_autotile x y v = Except.ok m' ∧
        m'.tilemap = m.tilemap ∧ m'.rulesets = m.rulesets ∧
        m'.autotiles[y * m.width + x]? = some v ∧
        (∀ x' y', x' < m.width → y' < m.height → ¬(x' = x ∧ y' = y) →
          m'.autotiles[y' * m.width + x']? = m.autotiles[y' * m.width + x']?)) ∧
    (¬(x < m.width ∧ y < m.height) →
      m.set_autotile x y v =
        Except.error (EmeraldError.boundsError x y m.width m.height)) ∧
    m.set_tile x y = m.set_autotile x y AutoTile.Tile ∧
    m.set_none x y = m.set_autotile x y AutoTile.None := by
  refine ⟨?_, ?_, rfl, rfl⟩
  · rintro ⟨hx, hy⟩
    refine ⟨{ m with autotiles := m.autotiles.set (y * m.width + x) v }, ?_, rfl, rfl, ?_, ?_⟩
    · unfold AutoTilemap.set_autotile get_tilemap_index
      rw [if_pos (And.intro hx hy)]
    · have hidx : y * m.width + x < m.autotiles.length := by
        rw [hlen]; exact index_lt hx hy
      rw [List.getElem?_set_self']
      simp [List.getElem?_eq_getElem hidx]
    · intro x' y' hx' hy' hne
      have hneq : y' * m.width + x' ≠ y * m.width + x := fun hcontra =>
        hne (index_inj hx hx' hcontra)
      exact List.getElem?_set_ne hneq.symm
  · intro hb
    unfold AutoTilemap.set_autotile get_tilemap_index
    rw [if_neg hb]

/-- Witness for C10: on the 1x1 map `mOcc`, setting (0, 0) succeeds and only
touches that marker; setting (3, 0) fails with the bounds error. -/
theorem claim_C10_witness :
    (∃ m', mOcc.set_autotile 0 0 AutoTile.None = Except.ok m' ∧
      m'.tilemap = mOcc.tilemap ∧ m'.rulesets = mOcc.rulesets ∧
      m'.autotiles[0]? = some AutoTile.None) ∧
    mOcc.set_autotile 3 0 AutoTile.Tile =
      Except.error (EmeraldError.boundsError 3 0 1 1) := by
  constructor
  · obtain ⟨m', h1, h2, h3, h4, _⟩ :=
      (claim_C10_setters mOcc 0 0 AutoTile.None (by decide)).1 (by decide)
    exact ⟨m', h1, h2, h3, h4⟩
  · exact (claim_C10_setters mOcc 3 0 AutoTile.Tile (by decide)).2.1 (by decide)

/-- `find?` over an append searches the left list first. -/
lemma find?_append {α : Type} (p : α → Bool) (l1 l2 : List α) :
    (l1 ++ l2).find? p = (l1.find? p).orElse (fun _ => l2.find? p) := by
  induction l1 with
  | nil => rfl
  | cons a l ih =>
    by_cases ha : p a
    · rw [List.cons_append, List.find?_cons_of_pos _ ha, List.find?_cons_of_pos _ ha]
      rfl
    · rw [List.cons_append, List.find?_cons_of_neg _ ha, List.find?_cons_of_neg _ ha, ih]

/-- Indexed writes preserve the length of the tile list. -/
lemma applyWrites_length (ws : List (Nat × Option TileId)) :
    ∀ l : List (Option TileId), (applyWrites ws l).length = l.length := by
  induction ws with
  | nil => intro l; rfl
  | cons q ws ih =>
    intro l
    rw [show applyWrites (q :: ws) l = applyWrites ws (l.set q.1 q.2) from rfl, ih,
      List.length_set]

/-- The result of a write sequence, pointwise: the last write at an index
wins; indices never written (or out of range) keep their old entry. -/
lemma applyWrites_getElem? (ws : List (Nat × Option TileId)) :
    ∀ (l : List (Option TileId)) (i : Nat),
    (applyWrites ws l)[i]? =
      match ws.reverse.find? (fun q => q.1 == i) with
      | some q => if i < l.length then some q.2 else l[i]?
      | none => l[i]? := by
  induction ws with
  | nil => intro l i; rfl
  | cons q ws ih =>
    intro l i
    rw [show applyWrites (q :: ws) l = applyWrites ws (l.set q.1 q.2) from rfl, ih,
      List.reverse_cons, find?_append]
    cases hf : ws.reverse.find? (fun q => q.1 == i) with
    | some p =>
      simp only [Option.some_orElse, List.length_set]
      by_cases hi : i < l.length
      · simp [hi]
      · have hle : l.length ≤ i := Nat.le_of_not_lt hi
        simp [hi, List.getElem?_eq_none hle,
          List.getElem?_eq_none (le_trans (le_of_eq (List.length_set l q.1 q.2)) hle)]
    | none =>
      simp only [Option.none_orElse]
      by_cases hq : q.1 = i
      · subst hq
        rw [List.getElem?_set_self']
        by_cases hi : q.1 < l.length
        · simp [List.getElem?_eq_getElem hi, hi]
        · simp [List.getElem?_eq_none (Nat.le_of_not_lt hi), hi]
      · rw [List.getElem?_set_ne hq]
        have hb : (q.1 == i) = false := by simp [hq]
        simp [List.find?, hb]

/-- Replaying the same write sequence is a no-op. -/
lemma applyWrites_idem (ws : List (Nat × Option TileId)) (l : List (Option TileId)) :
    applyWrites ws (applyWrites ws l) = applyWrites ws l := by
  apply List.ext_getElem?
  intro i
  rw [applyWrites_getElem?, applyWrites_getElem?]
  cases hf : ws.reverse.find? (fun q => q.1 == i) with
  | none => rfl
  | some p =>
    rw [applyWrites_length]
    by_cases hi : i < l.length
    · simp [hi]
    · have hle := Nat.le_of_not_lt hi
      have h2 : (applyWrites ws l).length ≤ i := by rw [applyWrites_length]; exact hle
      simp [hi, List.getElem?_eq_none hle, List.getElem?_eq_none h2]

/-- Monadic bind on a successful `Except` computation. -/
lemma except_ok_bind {α β : Type} (a : α) (f : α → Except EmeraldError β) :
    (Except.ok a >>= f) = f a := rfl

/-- The body of `bake`'s loop on an in-bounds cell: always succeeds and sets
exactly that cell of the Base Tile Grid. -/
lemma bakeCell_ok (m : AutoTilemap) (x y : Nat) (hx : x < m.width) (hy : y < m.height) :
    m.bakeCell x y = Except.ok
      { m with tilemap := { m.tilemap with
        tiles :=
          m.tilemap.tiles.set (y * m.width + x)
            (computeOpt m.rulesets m.autotiles m.width m.height x y) } } := by
  unfold AutoTilemap.bakeCell
  rw [compute_tile_id_ok, except_ok_bind]
  unfold Tilemap.set_tile get_tilemap_index
  rw [if_pos (show x < m.tilemap.width ∧ y < m.tilemap.height from And.intro hx hy),
    except_ok_bind]
  rfl

/-- Every cell `bake` visits is in bounds. -/
lemma mem_cellList {w h : Nat} {p : Nat × Nat} (hp : p ∈ cellList w h) :
    p.1 < w ∧ p.2 < h := by
  unfold cellList at hp
  simp only [List.mem_flatMap, List.mem_map, List.mem_range] at hp
  obtain ⟨a, ha, b, hb, rfl⟩ := hp
  exact ⟨ha, hb⟩

/-- `bake`'s fold succeeds and performs exactly the writes of the visited
cells, leaving every other field of the state untouched. -/
lemma foldl_bake (cells : List (Nat × Nat)) :
    ∀ m : AutoTilemap, (∀ p ∈ cells, p.1 < m.width ∧ p.2 < m.height) →
    cells.foldlM (fun acc p => acc.bakeCell p.1 p.2) m =
      Except.ok { m with tilemap := { m.tilemap with
        tiles :=
          applyWrites (cells.map fun p =>
            (p.2 * m.width + p.1,
             computeOpt m.rulesets m.autotiles m.width m.height p.1 p.2))
            m.tilemap.tiles } } := by
  induction cells with
  | nil => intro m _; rfl
  | cons p cells ih =>
    intro m hb
    rw [List.foldlM_cons,
      bakeCell_ok m p.1 p.2 (hb p (by simp)).1 (hb p (by simp)).2, except_ok_bind]
    rw [ih { m with tilemap := { m.tilemap with
        tiles :=
          m.tilemap.tiles.set (p.2 * m.width + p.1)
            (computeOpt m.rulesets m.autotiles m.width m.height p.1 p.2) } }
      (fun q hq => hb q (by simp [hq]))]
    rfl

/-- `bake` always succeeds, producing `bakeResult`. -/
lemma bake_ok (m : AutoTilemap) : m.bake = Except.ok (bakeResult m) := by
  unfold AutoTilemap.bake bakeResult bakeWrites
  exact foldl_bake (cellList m.width m.height) m (fun p hp => mem_cellList hp)

/-- Claim C6: `bake` succeeds without mutating the Occupancy Grid, the
ruleset collection or the dimensions, and it is idempotent: baking the baked
state succeeds and returns that state unchanged (identical Base Tile Grid
contents). -/
theorem claim_C6_bake_idempotent (m : AutoTilemap) :
    ∃ m', m.bake = Except.ok m' ∧
      m'.autotiles = m.autotiles ∧ m'.rulesets = m.rulesets ∧
      m'.width = m.width ∧ m'.height = m.height ∧
      m'.bake = Except.ok m' := by
  refine ⟨bakeResult m, bake_ok m, rfl, rfl, rfl, rfl, ?_⟩
  rw [bake_ok (bakeResult m)]
  congr 1
  show ({ m with tilemap := { m.tilemap with
    tiles := applyWrites (bakeWrites m)
      (applyWrites (bakeWrites m) m.tilemap.tiles) } } : AutoTilemap) = bakeResult m
  rw [applyWrites_idem]
  rfl

/-- Claim C8: `new` creates exactly `width * height` occupancy markers, all
`None`; and every operation (`set_tile`, `set_none`, `set_autotile`,
`add_ruleset`, `remove_ruleset`, `bake`) preserves the invariant that the
occupancy sequence's length equals `width * height`. -/
theorem claim_C8_occupancy_length :
    (∀ (ts : TextureKey) (sz : Nat × Nat) (w h : Nat) (rs : List AutoTileRuleset),
      (AutoTilemap.new ts sz w h rs).autotiles = List.replicate (w * h) AutoTile.None ∧
      (AutoTilemap.new ts sz w h rs).autotilesInv) ∧
    (∀ (m : AutoTilemap) (x y : Nat) (v : AutoTile) (m' : AutoTilemap),
      m.autotilesInv → m.set_autotile x y v = Except.ok m' → m'.autotilesInv) ∧
    (∀ (m : AutoTilemap) (x y : Nat) (m' : AutoTilemap),
      m.autotilesInv → m.set_tile x y = Except.ok m' → m'.autotilesInv) ∧
    (∀ (m : AutoTilemap) (x y : Nat) (m' : AutoTilemap),
      m.autotilesInv → m.set_none x y = Except.ok m' → m'.autotilesInv) ∧
    (∀ (m : AutoTilemap) (r : AutoTileRuleset),
      m.autotilesInv → (m.add_ruleset r).autotilesInv) ∧
    (∀ (m : AutoTilemap) (tid : TileId),
      m.autotilesInv → ((m.remove_ruleset tid).2).autotilesInv) ∧
    (∀ (m m' : AutoTilemap), m.autotilesInv → m.bake = Except.ok m' → m'.autotilesInv) := by
  have hset : ∀ (m : AutoTilemap) (x y : Nat) (v : AutoTile) (m' : AutoTilemap),
      m.autotilesInv → m.set_autotile x y v = Except.ok m' → m'.autotilesInv := by
    intro m x y v m' hinv hok
    unfold AutoTilemap.set_autotile get_tilemap_index at hok
    by_cases hb : x < m.width ∧ y < m.height
    · rw [if_pos hb] at hok
      injection hok with hok
      subst hok
      unfold AutoTilemap.autotilesInv
      rw [List.length_set]
      exact hinv
    · rw [if_neg hb] at hok
      exact Except.noConfusion hok
  refine ⟨?_, hset, ?_, ?_, ?_, ?_, ?_⟩
  · intro ts sz w h rs
    refine ⟨rfl, ?_⟩
    unfold AutoTilemap.autotilesInv AutoTilemap.new AutoTilemap.width AutoTilemap.height
      Tilemap.new
    simp
  · exact fun m x y m' hinv hok => hset m x y AutoTile.Tile m' hinv hok
  · exact fun m x y m' hinv hok => hset m x y AutoTile.None m' hinv hok
  · exact fun m r hinv => hinv
  · intro m tid hinv
    unfold AutoTilemap.remove_ruleset
    cases hf : findPosition (fun ruleset => ruleset.tile_id == tid) m.rulesets
    · exact hinv
    · exact hinv
  · intro m m' hinv hok
    rw [bake_ok] at hok
    injection hok with hok
    subst hok
    exact hinv

/-- Witness for C8 on concrete 2x2 and 1x1 maps, covering construction and
all six operations. -/
theorem claim_C8_witness :
    (AutoTilemap.new tkW (1, 1) 2 2 []).autotiles = List.replicate 4 AutoTile.None ∧
      (AutoTilemap.new tkW (1, 1) 2 2 []).autotilesInv ∧
      (∃ ms, mOcc.set_autotile 0 0 AutoTile.None = Except.ok ms ∧ ms.autotilesInv) ∧
      (mOcc.add_ruleset rsCenN).autotilesInv ∧
      ((mOcc.remove_ruleset 6).2).autotilesInv ∧
      (∃ mb, mOcc.bake = Except.ok mb ∧ mb.autotilesInv) := by
  refine ⟨(claim_C8_occupancy_length.1 tkW (1, 1) 2 2 []).1,
    (claim_C8_occupancy_length.1 tkW (1, 1) 2 2 []).2,
    ⟨_, rfl, claim_C8_occupancy_length.2.1 mOcc 0 0 AutoTile.None _ rfl rfl⟩,
    claim_C8_occupancy_length.2.2.2.2.1 mOcc rsCenN rfl,
    claim_C8_occupancy_length.2.2.2.2.2.1 mOcc 6 rfl,
    ⟨bakeResult mOcc, bake_ok mOcc,
      claim_C8_occupancy_length.2.2.2.2.2.2 mOcc _ rfl (bake_ok mOcc)⟩⟩
